import Mathlib

/-!
Verification of the ncs-scalable-virusscanner core against its specification.

The definitions below are a shallow embedding of the Python sources under
`src/src/aether_platform`: the shared Redis-backed state store, the stream
data provider (`common/providers/redis_stream.py`), the producer-side scan
adapter and orchestrator (`producer/infrastructure/redis_adapter.py`,
`producer/application/orchestrator.py`), the external-processor handler
(`producer/interfaces/grpc/handler.py`), the consumer-side task service and
engine client (`consumer/application/service.py`,
`consumer/infrastructure/engine_client.py`), the intelligent cache
(`intelligent_cache/application/service.py`, `intelligent_cache/domain/policy.py`)
and the SDS certificate cache (`producer/interfaces/grpc/sds.py`).
-/

namespace VirusScanner

/-! ## Redis-like shared state store

Keys map to either a string value or a list value, with an optional TTL in
seconds.  This mirrors the subset of Redis used by the sources: `SET` (with
`ex`), `GET`, `DEL`, `EXISTS`, `EXPIRE`, `LPUSH`, `RPUSH`, `BRPOP`, `BLMOVE`.
-/

/-- A Redis value: either a plain string or a list of strings (byte payloads
are modelled as strings). -/
inductive RVal where
  | str (s : String)
  | list (l : List String)
deriving DecidableEq

/-- The shared state store: a partial map from keys to values plus a partial
map from keys to TTLs (seconds). -/
structure Store where
  val : String → Option RVal
  ttl : String → Option Nat

/-- The empty store. -/
def Store.empty : Store := ⟨fun _ => none, fun _ => none⟩

/-- Redis `SET key value [EX ex]`: overwrites any existing value (of either
type) with a string value; the TTL becomes `ex` (SET without EX clears any
TTL). -/
def Store.set (st : Store) (k : String) (v : String) (ex : Option Nat) : Store :=
  ⟨fun q => if q = k then some (RVal.str v) else st.val q,
   fun q => if q = k then ex else st.ttl q⟩

/-- Redis `DEL key`. -/
def Store.del (st : Store) (k : String) : Store :=
  ⟨fun q => if q = k then none else st.val q,
   fun q => if q = k then none else st.ttl q⟩

/-- Redis `GET key`: returns the string value; absent (or list-typed) keys
give `none` (list-typed keys never reach `GET` in the modelled code paths). -/
def Store.getStr (st : Store) (k : String) : Option String :=
  match st.val k with
  | some (RVal.str s) => some s
  | _ => none

/-- Redis `EXISTS key`. -/
def Store.existsKey (st : Store) (k : String) : Bool :=
  (st.val k).isSome

/-- Redis `EXPIRE key s`: sets a TTL only when the key exists. -/
def Store.expire (st : Store) (k : String) (s : Nat) : Store :=
  if (st.val k).isSome then
    ⟨st.val, fun q => if q = k then some s else st.ttl q⟩
  else st

/-- Write a list value directly (used to describe states reached by a
sequence of pushes). -/
def Store.setList (st : Store) (k : String) (l : List String) : Store :=
  ⟨fun q => if q = k then some (RVal.list l) else st.val q,
   fun q => if q = k then none else st.ttl q⟩

/-- Redis `LPUSH key v`: prepends to a list; fails (WRONGTYPE) on a
string-typed key. -/
def Store.lpush (st : Store) (k : String) (v : String) : Option Store :=
  match st.val k with
  | none => some (st.setList k [v])
  | some (RVal.list l) => some (st.setList k (v :: l))
  | some (RVal.str _) => none

/-- Redis `RPUSH key v`: appends to a list; fails (WRONGTYPE) on a
string-typed key. -/
def Store.rpush (st : Store) (k : String) (v : String) : Option Store :=
  match st.val k with
  | none => some (st.setList k [v])
  | some (RVal.list l) => some (st.setList k (l ++ [v]))
  | some (RVal.str _) => none

/-- Result of a non-blocking view of `BRPOP`/`BLMOVE` on the current state. -/
inductive PopRes where
  | popped (v : String)
  | empty
  | wrongType
deriving DecidableEq

/-- Non-blocking view of Redis `BRPOP key`: pops from the tail of the list.
`empty` corresponds to the blocking/timeout case. -/
def Store.brpopNow (st : Store) (k : String) : PopRes × Store :=
  match st.val k with
  | none => (PopRes.empty, st)
  | some (RVal.str _) => (PopRes.wrongType, st)
  | some (RVal.list []) => (PopRes.empty, st)
  | some (RVal.list l) =>
      match l.getLast? with
      | none => (PopRes.empty, st)
      | some v => (PopRes.popped v, st.setList k (l.dropLast))

/-- Non-blocking view of Redis `BLMOVE src dst LEFT RIGHT`: atomically pops
the head of `src` and appends it to `dst`.  `empty` corresponds to the
timeout case of the blocking command. -/
def Store.blmoveOnce (st : Store) (src dst : String) : PopRes × Store :=
  match st.val src with
  | none => (PopRes.empty, st)
  | some (RVal.str _) => (PopRes.wrongType, st)
  | some (RVal.list []) => (PopRes.empty, st)
  | some (RVal.list (c :: rest)) =>
      let st1 := st.setList src rest
      match st1.rpush dst c with
      | some st2 => (PopRes.popped c, st2)
      | none => (PopRes.wrongType, st)

/-! ## Domain models (`virusscan/domain/models.py`) -/

/-- Model of `ScanStatus` enum. -/
inductive ScanStatus where
  | PENDING
  | CLEAN
  | INFECTED
  | ERROR
deriving DecidableEq

/-- Model of `ScanResult` dataclass. -/
structure ScanResult where
  taskId : String
  status : ScanStatus
  virusName : Option String
  detail : Option String
deriving DecidableEq

/-- Model of `ScanResult.is_infected`. -/
def ScanResult.isInfected (r : ScanResult) : Bool :=
  r.status = ScanStatus.INFECTED

/-- The member names of the `ScanStatus` enum (`ScanStatus.__members__`). -/
def scanStatusMembers : List String := ["PENDING", "CLEAN", "INFECTED", "ERROR"]

/-- Model of `ScanStatus[s]` lookup over the member names. -/
def scanStatusOfName (s : String) : ScanStatus :=
  if s = "PENDING" then ScanStatus.PENDING
  else if s = "CLEAN" then ScanStatus.CLEAN
  else if s = "INFECTED" then ScanStatus.INFECTED
  else ScanStatus.ERROR

/-! ## Stream data provider (`common/providers/redis_stream.py`)

`RedisStreamProvider(chunks_key)` uses the list at key `chunks_key` for raw
chunks, `chunks_key ++ ":verified"` for the verified replay, and
`chunks_key ++ ":done"` for the completion sentinel. -/

namespace RedisStreamProvider

/-- Key of the verified-replay list (`self.verified_key`). -/
def verifiedKey (chunksKey : String) : String := chunksKey ++ ":verified"

/-- Key of the completion sentinel (`self.done_key`). -/
def doneKey (chunksKey : String) : String := chunksKey ++ ":done"

/-- Model of `finalize(success, is_virus)`: delete the verified replay unless the scan
succeeded with no virus, in which case give it a one-hour TTL; always delete
the done sentinel. -/
def finalize (chunksKey : String) (success isVirus : Bool) (st : Store) : Store :=
  let st1 :=
    if !success || isVirus then st.del (verifiedKey chunksKey)
    else st.expire (verifiedKey chunksKey) 3600
  st1.del (doneKey chunksKey)

/-- Model of `finalize_push()`: write the done sentinel. -/
def finalizePush (chunksKey : String) (st : Store) : Store :=
  st.set (doneKey chunksKey) "1" none

/-- Truthiness of the value read for the done sentinel (`if await
self.redis.get(self.done_key)`): present and non-empty. -/
def doneTruthy (chunksKey : String) (st : Store) : Bool :=
  match st.getStr (doneKey chunksKey) with
  | some s => !(s = "")
  | none => false

/-- One drain of the `get_chunks` loop under sequential semantics (no
concurrent producer): repeatedly `BLMOVE chunks_key verified_key`; a chunk
that is falsy (empty) or a timeout triggers the done-sentinel check, which
either breaks the loop or keeps blocking.  `fuel` bounds the number of loop
iterations; `none` models a loop that is still blocked (or a WRONGTYPE
error) after `fuel` iterations.  Returns the yielded chunks and the final
store. -/
def drainLoop (chunksKey : String) :
    Nat → Store → List String → Option (List String × Store)
  | 0, _, _ => none
  | fuel + 1, st, acc =>
    match st.blmoveOnce chunksKey (verifiedKey chunksKey) with
    | (PopRes.popped c, st1) =>
        if c = "" then
          if doneTruthy chunksKey st1 then some (acc, st1)
          else drainLoop chunksKey fuel st1 acc
        else drainLoop chunksKey fuel st1 (acc ++ [c])
    | (PopRes.empty, st1) =>
        if doneTruthy chunksKey st1 then some (acc, st1)
        else drainLoop chunksKey fuel st1 acc
    | (PopRes.wrongType, _) => none

/-- Model of `get_chunks()`: delete the verified-replay key, then run the follower
loop. -/
def getChunks (chunksKey : String) (fuel : Nat) (st : Store) :
    Option (List String × Store) :=
  drainLoop chunksKey fuel (st.del (verifiedKey chunksKey)) []

end RedisStreamProvider

/-! ## Producer scan adapter (`producer/infrastructure/redis_adapter.py`) -/

/-- A JSON scalar appearing in the job-metadata record. -/
inductive JVal where
  | s (v : String)
  | num (v : ℚ)
deriving DecidableEq

namespace RedisScanAdapter

/-- Model of `get_last_tat(is_priority)`: read `tat_high_last` / `tat_normal_last`
(milliseconds, as a decimal string — modelled as the parsed number) and
return seconds; 0 when the key is missing. -/
def getLastTat (tatMs : Option ℚ) : ℚ :=
  match tatMs with
  | some v => v / 1000
  | none => 0

/-- Model of `enqueue_task(task_id, mode, start_time, tenant_id, is_priority)`:
the queue chosen and the JSON job-metadata record pushed onto it, with
`enqueued_at` converted from nanoseconds to seconds.  (The method accepts no
`client_ip` argument and writes no such field.) -/
def enqueueTask (taskId mode : String) (startTimeNs : ℕ) (tenantId : String)
    (isPriority : Bool) : String × List (String × JVal) :=
  ( if isPriority then "scan_priority" else "scan_normal",
    [ ("stream_id", JVal.s taskId),
      ("priority", JVal.s (if isPriority then "high" else "low")),
      ("enqueued_at", JVal.num ((startTimeNs : ℚ) / 1000000000)),
      ("tenant_id", JVal.s tenantId),
      ("mode", JVal.s mode) ] )

end RedisScanAdapter

/-! ## Scan orchestrator (`producer/application/orchestrator.py`) -/

namespace ScanOrchestrator

/-- Outcome of `start_scan`: the boolean return value and whether the job
metadata was pushed onto a queue during the call. -/
structure StartScanOutcome where
  returned : Bool
  enqueued : Bool
deriving DecidableEq

/-- Model of `start_scan(task_id, is_priority, tenant_id)`, abstracted over the
observable inputs: the stored last-TAT metric for the chosen priority
(milliseconds, `none` when missing) and whether an ACK for this task arrives
within the 300 s handshake window.  The code first applies the predictive
congestion bypass (`last_tat > 300.0` seconds), then enqueues the job, then
blocks on `wait_for_ack` and returns its outcome. -/
def startScan (tatMs : Option ℚ) (ackArrives : Bool) : StartScanOutcome :=
  if RedisScanAdapter.getLastTat tatMs > 300 then ⟨false, false⟩
  else ⟨ackArrives, true⟩

/-- Observable outcome of the producer-side result wait for one task: the
pop timed out, the pop raised, the payload failed to decode as JSON, or it
decoded to an object with optional `status` / `virus` / `detail` fields. -/
inductive RawOutcome where
  | timeout
  | popFailure
  | malformed
  | decoded (status : Option String) (virus : Option String) (detail : Option String)
deriving DecidableEq

/-- Model of `get_result(task_id)`: decode the popped payload into a `ScanResult`.
`sessionPresent` states whether `_start_times` still holds the session (the
code returns ERROR "Session data lost" otherwise).  Exceptions (pop failure,
JSON decode failure) are caught and mapped to ERROR; a missing `status`
field defaults to the string `"ERROR"`; a status string is looked up among
the `ScanStatus` member names, anything else mapping to ERROR. -/
def getResult (taskId : String) (sessionPresent : Bool) (raw : RawOutcome) :
    ScanResult :=
  match raw with
  | RawOutcome.popFailure => ⟨taskId, ScanStatus.ERROR, none, some "exception"⟩
  | RawOutcome.malformed =>
      if sessionPresent then ⟨taskId, ScanStatus.ERROR, none, some "exception"⟩
      else ⟨taskId, ScanStatus.ERROR, none, some "Session data lost"⟩
  | RawOutcome.timeout =>
      if sessionPresent then ⟨taskId, ScanStatus.ERROR, none, some "Timeout"⟩
      else ⟨taskId, ScanStatus.ERROR, none, some "Session data lost"⟩
  | RawOutcome.decoded status virus detail =>
      if sessionPresent then
        let statusStr := status.getD "ERROR"
        ⟨taskId,
          if statusStr ∈ scanStatusMembers then scanStatusOfName statusStr
          else ScanStatus.ERROR,
          virus, detail⟩
      else ⟨taskId, ScanStatus.ERROR, none, some "Session data lost"⟩

end ScanOrchestrator

/-! ## Scanner engine client (`consumer/infrastructure/engine_client.py`) -/

/-- Whether the character list contains `FOUND` as a contiguous substring. -/
def listHasFOUND : List Char → Bool
  | [] => false
  | c :: rest => "FOUND".toList.isPrefixOf (c :: rest) || listHasFOUND rest

/-- Whether the daemon reply contains the literal token `FOUND`
(`"FOUND" in response`). -/
def containsFOUND (s : String) : Bool := listHasFOUND s.toList

namespace ScannerEngineClient

/-- The value returned by `scan(provider)` once the daemon reply has been
read: a pair `(is_infected, message)` — `(True, response)` when the reply
contains `FOUND`, `(False, "")` otherwise.  The method returns exactly these
two components; it keeps no count of the bytes streamed. -/
def scanReturn (response : String) : Bool × String :=
  if containsFOUND response then (true, response) else (false, "")

end ScannerEngineClient

/-! ## Scanner task service (`consumer/application/service.py`) -/

namespace ScannerTaskService

/-- Key of the handshake ACK list (`f"ack:{stream_id}"`). -/
def ackKey (streamId : String) : String := "ack:" ++ streamId

/-- Model of `_send_ack(stream_id)`: `provider.push` (an `LPUSH`) of `"1"` onto
`ack:{stream_id}`, followed by `store.set(ack_key, "1", ex=300)` — a Redis
`SET`, which overwrites the key (of any type) with the string `"1"` and TTL
300 s.  `none` models a raised WRONGTYPE error from the push. -/
def sendAck (streamId : String) (st : Store) : Option Store :=
  (st.lpush (ackKey streamId) "1").map
    (fun st1 => st1.set (ackKey streamId) "1" (some 300))

end ScannerTaskService

/-! ## Intelligent cache (`intelligent_cache/application/service.py` and
`intelligent_cache/domain/policy.py`)

The SHA-256 hex digest is computed by the external `hashlib` library; the
model takes the digest function as a parameter `h`. -/

/-- A SET command that was issued as a coroutine but never awaited: it
captures its arguments yet performs no store operation. -/
structure PendingSet where
  key : String
  value : String
  ex : Option Nat
deriving DecidableEq

/-- The store operation the pending SET would have performed, had the
coroutine been awaited. -/
def PendingSet.apply (p : PendingSet) (st : Store) : Store :=
  st.set p.key p.value p.ex

namespace IntelligentCacheService

/-- Model of `BypassPolicy.should_bypass(uri)`: always `False` (automatic bypass is
disabled). -/
def shouldBypass (_uri : String) : Bool := false

/-- Model of `_get_cache_key(uri)`: `f"aether:cache:uri:{sha256(uri).hexdigest()}"`. -/
def getCacheKey (h : String → String) (uri : String) : String :=
  "aether:cache:uri:" ++ h uri

/-- Model of `check_cache(uri)`: policy first, then `EXISTS` on the cache
key.  The plain method returns the coroutine of `self.provider.exists(...)`,
which the handler awaits, so the existence test does execute. -/
def checkCache (h : String → String) (st : Store) (uri : String) : Bool :=
  if shouldBypass uri then true
  else st.existsKey (getCacheKey h uri)

/-- Model of `store_cache(uri, ttl)`: the body calls
`self.provider.set(cache_key, "1", ex=ttl)` *without* `await` on the async
provider (`RedisStateStoreProvider.set` is `async def`), so the coroutine —
which captures the key, value `"1"` and the TTL — is created and discarded
and the SET never executes.  The method returns the store unchanged,
alongside the pending SET the discarded coroutine would have run. -/
def storeCache (h : String → String) (st : Store) (uri : String) (ttl : Nat) :
    Store × PendingSet :=
  (st, ⟨getCacheKey h uri, "1", some ttl⟩)

end IntelligentCacheService

/-! ## External-processor handler (`producer/interfaces/grpc/handler.py`) -/

namespace ExtProcHandler

/-- Model of `_CACHEABLE_METHODS`. -/
def cacheableMethods : List String := ["GET", "HEAD", "OPTIONS"]

/-- Whether the `Process` header phase consults the clean-URL cache
(`check_cache`): only for request headers whose (upper-cased) method is
cacheable. -/
def cacheReadPerformed (isRequestPhase : Bool) (method : String) : Bool :=
  isRequestPhase && cacheableMethods.contains method

/-- Whether `_finalize_scan_async` reaches the `store_cache` call, as a
function of the awaited handshake outcome (`none` when no handshake task was
spawned), the scan result status, and the request method: a handshake
timeout returns early; an INFECTED result returns early; otherwise the call
is reached exactly for cacheable methods. -/
def finalizeScanReachesStore (handshake : Option Bool) (status : ScanStatus)
    (method : String) : Bool :=
  match handshake with
  | some false => false
  | _ =>
      if (ScanResult.mk "" status none none).isInfected then false
      else cacheableMethods.contains method

/-- Effect of the finalization path on the shared store, on its cache-write
side: when the `store_cache` call is reached, its body discards the SET
coroutine so the store is left unchanged (the subsequent `await` of the
method's `None` return raises a TypeError that the surrounding `except`
swallows); when the call is not reached the store is also unchanged. -/
def finalizeScanCacheStep (handshake : Option Bool) (status : ScanStatus)
    (method : String) (h : String → String) (path : String) (st : Store) :
    Store :=
  if finalizeScanReachesStore handshake status method then
    (IntelligentCacheService.storeCache h st path 3600).1
  else st

end ExtProcHandler

/-! ## SDS certificate cache (`producer/interfaces/grpc/sds.py`)

The cache is an ordered dictionary from SNI name to cached material; the
model keeps it as an association list whose front is the least recently used
entry and whose back is the most recently used (matching `OrderedDict`
insertion order with `move_to_end` / `popitem(last=False)`).  Timestamps are
`time.monotonic()` values, modelled as naturals.  RSA generation is
performed by the external `cryptography` library; the material a miss would
mint is passed in as `fresh`. -/

namespace SecretDiscoveryHandler

/-- Model of `_CachedCert`. -/
structure CachedCert where
  certPem : String
  keyPem : String
  chainPem : String
  createdAt : Nat
deriving DecidableEq

/-- The certificate cache, LRU at the front. -/
abbrev CertCache := List (String × CachedCert)

/-- Dictionary lookup by SNI name. -/
def lookupCert (c : CertCache) (name : String) : Option CachedCert :=
  (c.find? (fun p => p.1 = name)).map (fun p => p.2)

/-- Remove the entry for a name (`del self._cache[name]`). -/
def eraseCert (c : CertCache) (name : String) : CertCache :=
  c.filter (fun p => !(p.1 = name))

/-- Model of `_get_cached_cert(name)` at monotonic time `now`: a hit within the TTL
is moved to the most-recently-used end; an expired entry is removed. -/
def getCachedCert (ttlSeconds : Nat) (now : Nat) (name : String)
    (c : CertCache) : Option CachedCert × CertCache :=
  match lookupCert c name with
  | none => (none, c)
  | some e =>
      if now - e.createdAt > ttlSeconds then (none, eraseCert c name)
      else (some e, eraseCert c name ++ [(name, e)])

/-- Drop entries from the least-recently-used end until the size is at most
`maxSize` (`while len(self._cache) > self._cache_max_size: popitem(last=False)`). -/
def evictOver (maxSize : Nat) (c : CertCache) : CertCache :=
  c.drop (c.length - maxSize)

/-- Model of `_put_cached_cert(name, entry)`: an existing name is moved to the
most-recently-used end and overwritten; a new name is appended and LRU
entries are evicted while over capacity. -/
def putCachedCert (maxSize : Nat) (name : String) (e : CachedCert)
    (c : CertCache) : CertCache :=
  if (lookupCert c name).isSome then eraseCert c name ++ [(name, e)]
  else evictOver maxSize (c ++ [(name, e)])

/-- Model of `_generate_cert(name)` at monotonic time `now`: consult the cache; on a
hit return the cached bytes; on a miss mint `fresh` (stamped `now`), store
it, and return it. -/
def generateCert (maxSize ttlSeconds : Nat) (name : String) (now : Nat)
    (fresh : String × String × String) (c : CertCache) :
    (String × String × String) × CertCache :=
  match getCachedCert ttlSeconds now name c with
  | (some e, c1) => ((e.certPem, e.keyPem, e.chainPem), c1)
  | (none, c1) =>
      let e : CachedCert := ⟨fresh.1, fresh.2.1, fresh.2.2, now⟩
      ((e.certPem, e.keyPem, e.chainPem), putCachedCert maxSize name e c1)

end SecretDiscoveryHandler

/-! ## Helper lemmas about the store and keys -/

theorem Store.val_set_self (st : Store) (k v : String) (ex : Option Nat) :
    (st.set k v ex).val k = some (RVal.str v) := by
  simp [Store.set]

theorem Store.ttl_set_self (st : Store) (k v : String) (ex : Option Nat) :
    (st.set k v ex).ttl k = ex := by
  simp [Store.set]

theorem Store.val_set_ne (st : Store) (k v : String) (ex : Option Nat)
    (q : String) (h : q ≠ k) : (st.set k v ex).val q = st.val q := by
  simp [Store.set, h]

theorem Store.ttl_set_ne (st : Store) (k v : String) (ex : Option Nat)
    (q : String) (h : q ≠ k) : (st.set k v ex).ttl q = st.ttl q := by
  simp [Store.set, h]

theorem Store.val_del_self (st : Store) (k : String) :
    (st.del k).val k = none := by
  simp [Store.del]

theorem Store.ttl_del_self (st : Store) (k : String) :
    (st.del k).ttl k = none := by
  simp [Store.del]

theorem Store.val_del_ne (st : Store) (k q : String) (h : q ≠ k) :
    (st.del k).val q = st.val q := by
  simp [Store.del, h]

theorem Store.ttl_del_ne (st : Store) (k q : String) (h : q ≠ k) :
    (st.del k).ttl q = st.ttl q := by
  simp [Store.del, h]

theorem Store.val_setList_self (st : Store) (k : String) (l : List String) :
    (st.setList k l).val k = some (RVal.list l) := by
  simp [Store.setList]

theorem Store.val_setList_ne (st : Store) (k : String) (l : List String)
    (q : String) (h : q ≠ k) : (st.setList k l).val q = st.val q := by
  simp [Store.setList, h]

theorem Store.val_expire (st : Store) (k s : String) (n : Nat) :
    (st.expire k n).val s = st.val s := by
  unfold Store.expire
  by_cases h : (st.val k).isSome <;> simp [h]

theorem Store.ttl_expire_self (st : Store) (k : String) (n : Nat)
    (h : (st.val k).isSome = true) : (st.expire k n).ttl k = some n := by
  simp [Store.expire, h]

/-- A string extended by a non-empty suffix is a different string. -/
theorem append_ne_of_suffix_ne_nil (k s : String) (h : s.length ≠ 0) :
    k ++ s ≠ k := by
  intro he
  have h2 := congrArg String.length he
  rw [String.length_append] at h2
  exact h (Nat.add_left_cancel ((Nat.add_zero k.length).symm ▸ h2))

/-- Strings extended by suffixes of different lengths are different. -/
theorem append_ne_append_of_length_ne (k s t : String)
    (h : s.length ≠ t.length) : k ++ s ≠ k ++ t := by
  intro he
  have h2 := congrArg String.length he
  rw [String.length_append, String.length_append] at h2
  exact h (Nat.add_left_cancel h2)

theorem verifiedKey_ne_self (k : String) :
    RedisStreamProvider.verifiedKey k ≠ k :=
  append_ne_of_suffix_ne_nil k ":verified" (by decide)

theorem doneKey_ne_self (k : String) : RedisStreamProvider.doneKey k ≠ k :=
  append_ne_of_suffix_ne_nil k ":done" (by decide)

theorem doneKey_ne_verifiedKey (k : String) :
    RedisStreamProvider.doneKey k ≠ RedisStreamProvider.verifiedKey k :=
  append_ne_append_of_length_ne k ":done" ":verified" (by decide)

theorem verifiedKey_ne_doneKey (k : String) :
    RedisStreamProvider.verifiedKey k ≠ RedisStreamProvider.doneKey k :=
  fun h => doneKey_ne_verifiedKey k h.symm

/-! ## Claim theorems -/

/-- C1.  Evaluation of the orchestrator's dispatch operation (`start_scan`)
exhibiting its divergence from the claim: with the last TAT metric at
301000 ms the call returns false and enqueues nothing (the congestion half
of the claim), but with the metric at 0 ms and no ACK arriving within the
handshake window the call *enqueues the job yet still returns false* — the
boolean return is not decided by the congestion check and the enqueue alone.
(The handler additionally calls `orchestrator.dispatch_scan` and
`orchestrator.await_handshake`, neither of which `ScanOrchestrator`
defines.) -/
theorem claim_C1_start_scan_return_depends_on_ack :
    ScanOrchestrator.startScan (some 301000) true =
      ScanOrchestrator.StartScanOutcome.mk false false ∧
    ScanOrchestrator.startScan (some 0) false =
      ScanOrchestrator.StartScanOutcome.mk false true := by
  constructor
  · simp [ScanOrchestrator.startScan, RedisScanAdapter.getLastTat]
    norm_num
  · simp [ScanOrchestrator.startScan, RedisScanAdapter.getLastTat]

/-- C3.  Evaluation of the engine client's return value at concrete daemon
replies: a reply containing the token `FOUND` yields `(true, reply)` and a
clean reply yields `(false, "")`.  The returned value is this pair alone —
`scan` computes no `bytes_scanned`, while its caller
(`ScannerTaskService._process_stream_task`) unpacks three values from it. -/
theorem claim_C3_scan_return_has_no_byte_count :
    ScannerEngineClient.scanReturn "stream: OK" = (false, "") ∧
    ScannerEngineClient.scanReturn "stream: Win.Test.EICAR_HDB-1 FOUND" =
      (true, "stream: Win.Test.EICAR_HDB-1 FOUND") := by
  constructor <;> decide

/-- C4.  Evaluation of `_send_ack` on a fresh store: after the call the key
`ack:s1` holds the plain *string* `"1"` with TTL 300 — the `SET` issued
after the push has overwritten the list, so the pushed entry is gone and a
subsequent blocking pop of the key hits WRONGTYPE instead of popping it. -/
theorem claim_C4_send_ack_overwrites_list :
    (ScannerTaskService.sendAck "s1" Store.empty).map
        (fun st => (st.val (ScannerTaskService.ackKey "s1"),
                    st.ttl (ScannerTaskService.ackKey "s1"))) =
      some (some (RVal.str "1"), some 300) ∧
    (ScannerTaskService.sendAck "s1" Store.empty).map
        (fun st => (st.brpopNow (ScannerTaskService.ackKey "s1")).1) =
      some PopRes.wrongType := by
  constructor <;> decide

/-- C5.  Evaluation of `enqueue_task`: the job-metadata record pushed onto
the queue carries exactly the fields `stream_id`, `priority` (high/low),
`enqueued_at` (seconds since epoch, here 1.5 s for 1 500 000 000 ns),
`tenant_id` and `mode` — and no `client_ip` field. -/
theorem claim_C5_job_metadata_lacks_client_ip :
    (RedisScanAdapter.enqueueTask "t1" "STREAM" 1500000000 "ten" false).1 =
      "scan_normal" ∧
    (RedisScanAdapter.enqueueTask "t1" "STREAM" 1500000000 "ten" true).1 =
      "scan_priority" ∧
    (RedisScanAdapter.enqueueTask "t1" "STREAM" 1500000000 "ten" false).2.map
        Prod.fst =
      ["stream_id", "priority", "enqueued_at", "tenant_id", "mode"] ∧
    "client_ip" ∉
      (RedisScanAdapter.enqueueTask "t1" "STREAM" 1500000000 "ten" false).2.map
        Prod.fst ∧
    (RedisScanAdapter.enqueueTask "t1" "STREAM" 1500000000 "ten" false).2.lookup
        "enqueued_at" = some (JVal.num (3 / 2)) := by
  refine ⟨rfl, rfl, rfl, by decide, ?_⟩
  have h1 : ("enqueued_at" == "stream_id") = false := rfl
  have h2 : ("enqueued_at" == "priority") = false := rfl
  have h3 : ((1500000000 : ℚ) / 1000000000) = 3 / 2 := by norm_num
  simp [RedisScanAdapter.enqueueTask, List.lookup, h1, h2, h3]

/-- C2.  The clean-URL cache is read only when the request method is in
{GET, HEAD, OPTIONS}; and a cache entry is written only when the scan result
is CLEAN and the method is in that same set — the latter holds because the
finalization path never changes the store at all: whether or not it reaches
the `store_cache` call (it does so exactly for non-INFECTED results with
cacheable methods), the call's un-awaited SET coroutine writes nothing, so
in particular no write happens for INFECTED or ERROR results, nor for
non-cacheable methods. -/
theorem claim_C2_cache_read_only_and_write_only_guards :
    (∀ (phase : Bool) (m : String),
      ExtProcHandler.cacheReadPerformed phase m = true →
        m ∈ ExtProcHandler.cacheableMethods) ∧
    (∀ (hs : Option Bool) (s : ScanStatus) (m : String) (h : String → String)
       (p : String) (st : Store),
      ExtProcHandler.finalizeScanCacheStep hs s m h p st = st) ∧
    (∀ (hs : Option Bool) (s : ScanStatus) (m : String) (h : String → String)
       (p : String) (st : Store),
      ExtProcHandler.finalizeScanCacheStep hs s m h p st ≠ st →
        s = ScanStatus.CLEAN ∧ m ∈ ExtProcHandler.cacheableMethods) := by
  have hstep : ∀ (hs : Option Bool) (s : ScanStatus) (m : String)
      (h : String → String) (p : String) (st : Store),
      ExtProcHandler.finalizeScanCacheStep hs s m h p st = st := by
    intro hs s m h p st
    unfold ExtProcHandler.finalizeScanCacheStep IntelligentCacheService.storeCache
    split <;> rfl
  refine ⟨?_, hstep, ?_⟩
  · intro phase m h
    unfold ExtProcHandler.cacheReadPerformed at h
    have hm := (Bool.and_eq_true _ _).mp h |>.2
    simpa using hm
  · intro hs s m h p st hne
    exact absurd (hstep hs s m h p st) hne

/-- C2 witness.  Instantiation at a GET request: the read guard yields
membership, and the finalization step on an ERROR result leaves the empty
store unchanged. -/
theorem claim_C2_cache_guards_witness :
    "GET" ∈ ExtProcHandler.cacheableMethods ∧
    ExtProcHandler.finalizeScanCacheStep (some true) ScanStatus.ERROR "GET"
        (fun s => s) "/a" Store.empty = Store.empty :=
  ⟨claim_C2_cache_read_only_and_write_only_guards.1 true "GET" (by decide),
   claim_C2_cache_read_only_and_write_only_guards.2.1 (some true)
     ScanStatus.ERROR "GET" (fun s => s) "/a" Store.empty⟩

/-- C7 counterexample.  At the URI `/a`: the cache key built by
`_get_cache_key` carries the prefix `aether:cache:uri:`, not `cache:uri:`
(the identity digest stands in — the prefix is digest-independent), and
`store_cache` leaves the store unchanged, so after a store over the empty
store the lookup still misses: no value `"1"` was stored under any key,
with or without a TTL. -/
theorem claim_C7_key_prefix_and_store_unexecuted :
    IntelligentCacheService.getCacheKey (fun s => s) "/a" ≠
      "cache:uri:" ++ (fun (s : String) => s) "/a" ∧
    (IntelligentCacheService.storeCache (fun s => s) Store.empty "/a"
        3600).1 = Store.empty ∧
    IntelligentCacheService.checkCache (fun s => s)
        (IntelligentCacheService.storeCache (fun s => s) Store.empty "/a"
          3600).1 "/a" = false := by
  refine ⟨by decide, rfl, by decide⟩

/-- C7 (amended).  For every URI, the clean-URL cache lookup tests existence
of exactly the key `aether:cache:uri:{sha256(uri)}`; the store path issues a
SET of value `"1"` under that same key with the default TTL of 3600 s but
never executes it — the coroutine is not awaited — so the store is left
unchanged and no cache entry is ever written (had the pending SET been
executed, the lookup would hit). -/
theorem claim_C7_cache_key_and_unexecuted_store :
    ∀ (h : String → String) (st : Store) (uri : String),
      IntelligentCacheService.checkCache h st uri =
        st.existsKey (IntelligentCacheService.getCacheKey h uri) ∧
      (IntelligentCacheService.storeCache h st uri 3600).1 = st ∧
      (IntelligentCacheService.storeCache h st uri 3600).2 =
        PendingSet.mk (IntelligentCacheService.getCacheKey h uri) "1"
          (some 3600) ∧
      IntelligentCacheService.checkCache h
          (((IntelligentCacheService.storeCache h st uri 3600).2).apply st)
          uri = true := by
  intro h st uri
  refine ⟨rfl, rfl, rfl, ?_⟩
  unfold IntelligentCacheService.checkCache IntelligentCacheService.storeCache
    PendingSet.apply
  simp [IntelligentCacheService.shouldBypass, Store.existsKey,
    Store.val_set_self]

/-- C9 counterexample.  A decoded payload whose `status` field is the string
`"PENDING"` — outside {CLEAN, INFECTED, ERROR} but a `ScanStatus` member —
is not mapped to ERROR: `get_result` returns status PENDING. -/
theorem claim_C9_pending_passes_through :
    (ScanOrchestrator.getResult "t1" true
        (ScanOrchestrator.RawOutcome.decoded (some "PENDING") none none)).status =
      ScanStatus.PENDING ∧
    ScanStatus.PENDING ≠ ScanStatus.CLEAN ∧
    ScanStatus.PENDING ≠ ScanStatus.INFECTED ∧
    ScanStatus.PENDING ≠ ScanStatus.ERROR := by
  refine ⟨by decide, by decide, by decide, by decide⟩

/-- C9 (amended).  `get_result` never raises and always returns a
`ScanResult` whose status is a `ScanStatus` member: a result-pop timeout, a
pop failure, a JSON decode failure, lost session data, a missing `status`
field and a status string that is not a member name all map to ERROR, while
the member name `"PENDING"` is passed through as PENDING. -/
theorem claim_C9_get_result_total :
    (∀ (id : String) (s : Bool),
      (ScanOrchestrator.getResult id s ScanOrchestrator.RawOutcome.timeout).status =
        ScanStatus.ERROR) ∧
    (∀ (id : String) (s : Bool),
      (ScanOrchestrator.getResult id s ScanOrchestrator.RawOutcome.malformed).status =
        ScanStatus.ERROR) ∧
    (∀ (id : String) (s : Bool),
      (ScanOrchestrator.getResult id s ScanOrchestrator.RawOutcome.popFailure).status =
        ScanStatus.ERROR) ∧
    (∀ (id : String) (r : ScanOrchestrator.RawOutcome),
      (ScanOrchestrator.getResult id false r).status = ScanStatus.ERROR) ∧
    (∀ (id : String) (v d : Option String),
      (ScanOrchestrator.getResult id true
          (ScanOrchestrator.RawOutcome.decoded none v d)).status =
        ScanStatus.ERROR) ∧
    (∀ (id stt : String) (v d : Option String),
      stt ∉ scanStatusMembers →
      (ScanOrchestrator.getResult id true
          (ScanOrchestrator.RawOutcome.decoded (some stt) v d)).status =
        ScanStatus.ERROR) ∧
    (∀ (id : String) (v d : Option String),
      (ScanOrchestrator.getResult id true
          (ScanOrchestrator.RawOutcome.decoded (some "PENDING") v d)).status =
        ScanStatus.PENDING) := by
  refine ⟨?_, ?_, ?_, ?_, ?_, ?_, ?_⟩
  · intro id s; cases s <;> rfl
  · intro id s; cases s <;> rfl
  · intro id s; cases s <;> rfl
  · intro id r
    cases r with
    | timeout => rfl
    | popFailure => rfl
    | malformed => rfl
    | decoded status virus detail => rfl
  · intro id v d
    simp [ScanOrchestrator.getResult, scanStatusMembers, scanStatusOfName]
  · intro id stt v d hst
    simp [ScanOrchestrator.getResult, Option.getD, hst]
  · intro id v d
    simp [ScanOrchestrator.getResult, scanStatusMembers, scanStatusOfName]

/-- C9 witness.  Instantiation of the amended totality property at a status
string that is not a member name. -/
theorem claim_C9_get_result_total_witness :
    (ScanOrchestrator.getResult "t1" true
        (ScanOrchestrator.RawOutcome.decoded (some "WEIRD") none none)).status =
      ScanStatus.ERROR :=
  claim_C9_get_result_total.2.2.2.2.2.1 "t1" "WEIRD" none none (by decide)

/-- C6.  For every combination of the two booleans, `finalize(scan_success,
is_virus)` deletes the done key, keeps the verified-replay key exactly when
the scan succeeded without a virus (deleting it in every other case), and in
the keep case sets its TTL to 3600 s whenever the key exists. -/
theorem claim_C6_finalize_keeps_or_deletes :
    ∀ (ck : String) (success isVirus : Bool) (st : Store),
      (RedisStreamProvider.finalize ck success isVirus st).val
          (RedisStreamProvider.doneKey ck) = none ∧
      (RedisStreamProvider.finalize ck success isVirus st).val
          (RedisStreamProvider.verifiedKey ck) =
        (if success && !isVirus then
          st.val (RedisStreamProvider.verifiedKey ck)
         else none) ∧
      (success = true → isVirus = false →
        (st.val (RedisStreamProvider.verifiedKey ck)).isSome = true →
        (RedisStreamProvider.finalize ck success isVirus st).ttl
            (RedisStreamProvider.verifiedKey ck) = some 3600) := by
  intro ck success isVirus st
  unfold RedisStreamProvider.finalize
  refine ⟨Store.val_del_self .., ?_, ?_⟩
  · cases success <;> cases isVirus <;>
      simp [Store.val_del_ne _ _ _ (verifiedKey_ne_doneKey ck),
        Store.val_del_self, Store.val_expire]
  · intro hs hv hsome
    subst hs; subst hv
    rw [Store.ttl_del_ne _ _ _ (verifiedKey_ne_doneKey ck)]
    simp [Store.ttl_expire_self _ _ _ hsome]

/-- C6 witness.  Instantiation at a store holding a verified replay, for the
clean outcome. -/
theorem claim_C6_finalize_witness :
    (RedisStreamProvider.finalize "t" true false
        (Store.empty.setList (RedisStreamProvider.verifiedKey "t") ["c1"])).ttl
        (RedisStreamProvider.verifiedKey "t") = some 3600 :=
  (claim_C6_finalize_keeps_or_deletes "t" true false
      (Store.empty.setList (RedisStreamProvider.verifiedKey "t") ["c1"])).2.2
    rfl rfl (by decide)

/-! ## Helper lemmas for the SDS certificate cache -/

theorem find?_drop_none {α : Type} {p : α → Bool} {l : List α}
    (h : l.find? p = none) (k : Nat) : (l.drop k).find? p = none := by
  rw [List.find?_eq_none] at h ⊢
  intro x hx
  exact h x (List.mem_of_mem_drop hx)

theorem lookupCert_none_find? {c : SecretDiscoveryHandler.CertCache}
    {n : String} (h : SecretDiscoveryHandler.lookupCert c n = none) :
    c.find? (fun p => p.1 = n) = none := by
  unfold SecretDiscoveryHandler.lookupCert at h
  exact Option.map_eq_none'.mp h

theorem lookupCert_append_self (c : SecretDiscoveryHandler.CertCache)
    (n : String) (e : SecretDiscoveryHandler.CachedCert)
    (h : SecretDiscoveryHandler.lookupCert c n = none) :
    SecretDiscoveryHandler.lookupCert (c ++ [(n, e)]) n = some e := by
  unfold SecretDiscoveryHandler.lookupCert
  rw [List.find?_append, lookupCert_none_find? h]
  simp [List.find?]

theorem lookupCert_evict_append (maxSize : Nat)
    (c : SecretDiscoveryHandler.CertCache) (n : String)
    (e : SecretDiscoveryHandler.CachedCert)
    (h : SecretDiscoveryHandler.lookupCert c n = none) (hm : 1 ≤ maxSize) :
    SecretDiscoveryHandler.lookupCert
      (SecretDiscoveryHandler.evictOver maxSize (c ++ [(n, e)])) n = some e := by
  unfold SecretDiscoveryHandler.evictOver
  have hlen : (c ++ [(n, e)]).length = c.length + 1 := by simp
  rw [hlen, List.drop_append_of_le_length (by omega)]
  apply lookupCert_append_self
  unfold SecretDiscoveryHandler.lookupCert
  rw [find?_drop_none (lookupCert_none_find? h)]
  rfl

/-- C8.  SDS certificate cache behaviour: (i) after a miss-generated
certificate for a name, an immediately following request for the same name
within the TTL window returns byte-identical certificate, key, and chain
material, independent of the fresh material the second call could have
minted (no regeneration); (ii) inserting a new name when the cache is at
capacity evicts exactly the least-recently-used (front) entry; (iii) after
inserting a new name the cache size never exceeds the capacity. -/
theorem claim_C8_sds_cache_reuse_and_lru :
    (∀ (maxSize ttlS : Nat) (name : String) (t0 t1 : Nat)
       (f0 f1 : String × String × String)
       (c0 : SecretDiscoveryHandler.CertCache),
       SecretDiscoveryHandler.lookupCert c0 name = none →
       1 ≤ maxSize → t0 ≤ t1 → t1 - t0 ≤ ttlS →
       (SecretDiscoveryHandler.generateCert maxSize ttlS name t1 f1
           (SecretDiscoveryHandler.generateCert maxSize ttlS name t0 f0 c0).2).1 =
         (SecretDiscoveryHandler.generateCert maxSize ttlS name t0 f0 c0).1) ∧
    (∀ (maxSize : Nat) (name : String) (e : SecretDiscoveryHandler.CachedCert)
       (c : SecretDiscoveryHandler.CertCache),
       SecretDiscoveryHandler.lookupCert c name = none →
       c.length = maxSize → 1 ≤ maxSize →
       SecretDiscoveryHandler.putCachedCert maxSize name e c =
         c.drop 1 ++ [(name, e)]) ∧
    (∀ (maxSize : Nat) (name : String) (e : SecretDiscoveryHandler.CachedCert)
       (c : SecretDiscoveryHandler.CertCache),
       SecretDiscoveryHandler.lookupCert c name = none →
       (SecretDiscoveryHandler.putCachedCert maxSize name e c).length ≤
         maxSize) := by
  refine ⟨?_, ?_, ?_⟩
  · intro maxSize ttlS name t0 t1 f0 f1 c0 h hm ht httl
    have h1 : SecretDiscoveryHandler.getCachedCert ttlS t0 name c0 =
        (none, c0) := by
      unfold SecretDiscoveryHandler.getCachedCert
      rw [h]
    have hput : SecretDiscoveryHandler.putCachedCert maxSize name
        ⟨f0.1, f0.2.1, f0.2.2, t0⟩ c0 =
        SecretDiscoveryHandler.evictOver maxSize
          (c0 ++ [(name, ⟨f0.1, f0.2.1, f0.2.2, t0⟩)]) := by
      unfold SecretDiscoveryHandler.putCachedCert
      rw [h]
      rfl
    have h2 : SecretDiscoveryHandler.lookupCert
        (SecretDiscoveryHandler.putCachedCert maxSize name
          ⟨f0.1, f0.2.1, f0.2.2, t0⟩ c0) name =
        some ⟨f0.1, f0.2.1, f0.2.2, t0⟩ := by
      rw [hput]
      exact lookupCert_evict_append maxSize c0 name _ h hm
    simp only [SecretDiscoveryHandler.generateCert, h1]
    have h3 : SecretDiscoveryHandler.getCachedCert ttlS t1 name
        (SecretDiscoveryHandler.putCachedCert maxSize name
          ⟨f0.1, f0.2.1, f0.2.2, t0⟩ c0) =
        (some ⟨f0.1, f0.2.1, f0.2.2, t0⟩,
          SecretDiscoveryHandler.eraseCert
              (SecretDiscoveryHandler.putCachedCert maxSize name
                ⟨f0.1, f0.2.1, f0.2.2, t0⟩ c0) name ++
            [(name, ⟨f0.1, f0.2.1, f0.2.2, t0⟩)]) := by
      unfold SecretDiscoveryHandler.getCachedCert
      rw [h2]
      simp only
      rw [if_neg (by omega)]
    simp only [h3]
  · intro maxSize name e c h hlen hm
    unfold SecretDiscoveryHandler.putCachedCert
    rw [h]
    simp only [Option.isSome_none, Bool.false_eq_true, if_false]
    unfold SecretDiscoveryHandler.evictOver
    have hl : (c ++ [(name, e)]).length = c.length + 1 := by simp
    rw [hl, List.drop_append_of_le_length (by omega)]
    have : c.length + 1 - maxSize = 1 := by omega
    rw [this]
  · intro maxSize name e c h
    unfold SecretDiscoveryHandler.putCachedCert
    rw [h]
    simp only [Option.isSome_none, Bool.false_eq_true, if_false]
    unfold SecretDiscoveryHandler.evictOver
    simp only [List.length_drop]
    omega

/-- C8 witness.  Two consecutive requests for `example.com` five time units
apart within a 10 s TTL return identical material even though the second
call holds different fresh material; instantiated over the empty cache with
capacity 2. -/
theorem claim_C8_sds_cache_witness :
    (SecretDiscoveryHandler.generateCert 2 10 "example.com" 5
        ("c2", "k2", "ch2")
        (SecretDiscoveryHandler.generateCert 2 10 "example.com" 0
          ("c1", "k1", "ch1") []).2).1 =
      (SecretDiscoveryHandler.generateCert 2 10 "example.com" 0
        ("c1", "k1", "ch1") []).1 :=
  claim_C8_sds_cache_reuse_and_lru.1 2 10 "example.com" 0 5
    ("c1", "k1", "ch1") ("c2", "k2", "ch2") [] rfl (by decide) (by decide)
    (by decide)

/-! ## Helper lemmas for the stream-provider drain -/

theorem doneTruthy_of_val_eq (ck : String) (st st2 : Store)
    (h : st2.val (RedisStreamProvider.doneKey ck) =
      st.val (RedisStreamProvider.doneKey ck)) :
    RedisStreamProvider.doneTruthy ck st2 =
      RedisStreamProvider.doneTruthy ck st := by
  unfold RedisStreamProvider.doneTruthy Store.getStr
  rw [h]

/-- Invariant of the follower loop under sequential semantics: if the chunk
list holds `cs` (none of them empty), the verified list holds exactly the
chunks `acc` moved so far, and the done sentinel is truthy, then the loop
terminates within `cs.length + 1` iterations, yields `acc ++ cs`, and leaves
the verified list holding exactly `acc ++ cs`. -/
theorem drainLoop_spec (ck : String) :
    ∀ (cs : List String) (st : Store) (acc : List String),
      st.val ck = some (RVal.list cs) →
      st.val (RedisStreamProvider.verifiedKey ck) =
        (if acc.isEmpty then none else some (RVal.list acc)) →
      RedisStreamProvider.doneTruthy ck st = true →
      "" ∉ cs →
      ∃ stf, RedisStreamProvider.drainLoop ck (cs.length + 1) st acc =
          some (acc ++ cs, stf) ∧
        stf.val (RedisStreamProvider.verifiedKey ck) =
          (if (acc ++ cs).isEmpty then none
           else some (RVal.list (acc ++ cs))) := by
  intro cs
  induction cs with
  | nil =>
      intro st acc hck hvk hdone _
      refine ⟨st, ?_, by simpa using hvk⟩
      unfold RedisStreamProvider.drainLoop
      unfold Store.blmoveOnce
      rw [hck]
      simp [hdone]
  | cons c rest ih =>
      intro st acc hck hvk hdone hmem
      have hc : c ≠ "" := fun he => hmem (he ▸ List.mem_cons_self c rest)
      have hvkck := verifiedKey_ne_self ck
      have hdkck := doneKey_ne_self ck
      have hdkvk := doneKey_ne_verifiedKey ck
      -- the state after the successful BLMOVE
      set st2 := (st.setList ck rest).setList
        (RedisStreamProvider.verifiedKey ck) (acc ++ [c]) with hst2
      have hmove : st.blmoveOnce ck (RedisStreamProvider.verifiedKey ck) =
          (PopRes.popped c, st2) := by
        unfold Store.blmoveOnce
        rw [hck]
        simp only
        have hv1 : (st.setList ck rest).val
            (RedisStreamProvider.verifiedKey ck) =
            st.val (RedisStreamProvider.verifiedKey ck) :=
          Store.val_setList_ne _ _ _ _ hvkck
        unfold Store.rpush
        rw [hv1, hvk]
        cases acc with
        | nil => simp [hst2]
        | cons a as => simp [hst2]
      have hck2 : st2.val ck = some (RVal.list rest) := by
        rw [hst2]
        rw [Store.val_setList_ne _ _ _ _ (fun he => hvkck he.symm)]
        · exact Store.val_setList_self _ _ _
      have hvk2 : st2.val (RedisStreamProvider.verifiedKey ck) =
          (if (acc ++ [c]).isEmpty then none
           else some (RVal.list (acc ++ [c]))) := by
        rw [hst2, Store.val_setList_self]
        simp
      have hdone2 : RedisStreamProvider.doneTruthy ck st2 = true := by
        rw [doneTruthy_of_val_eq ck st st2 ?_]
        · exact hdone
        · rw [hst2]
          rw [Store.val_setList_ne _ _ _ _ hdkvk,
            Store.val_setList_ne _ _ _ _ hdkck]
      have hmem2 : "" ∉ rest := fun hr => hmem (List.mem_cons_of_mem c hr)
      obtain ⟨stf, hrun, hver⟩ := ih st2 (acc ++ [c]) hck2 hvk2 hdone2 hmem2
      refine ⟨stf, ?_, ?_⟩
      · show RedisStreamProvider.drainLoop ck (rest.length + 1 + 1) st acc =
          some (acc ++ c :: rest, stf)
        unfold RedisStreamProvider.drainLoop
        rw [hmove]
        simp only [hc, if_neg hc]
        rw [hrun]
        simp
      · rw [hver]
        simp

/-- C10.  The worker-side chunk iterator deletes the verified-replay key
before its first blocking move: starting from any store whose chunk list
holds `chunks` (all non-empty), whose verified-replay key holds arbitrary
leftovers `v0` from an earlier read, and whose done sentinel is set, a full
drain yields exactly `chunks` and leaves the verified list holding exactly
`chunks`, in order — independent of `v0`. -/
theorem claim_C10_drain_resets_verified :
    ∀ (ck : String) (chunks v0 : List String) (st0 : Store),
      "" ∉ chunks →
      ∃ stf,
        RedisStreamProvider.getChunks ck (chunks.length + 1)
            (((st0.setList ck chunks).setList
                  (RedisStreamProvider.verifiedKey ck) v0).set
              (RedisStreamProvider.doneKey ck) "1" none) =
          some (chunks, stf) ∧
        stf.val (RedisStreamProvider.verifiedKey ck) =
          (if chunks.isEmpty then none else some (RVal.list chunks)) := by
  intro ck chunks v0 st0 hmem
  have hvkck := verifiedKey_ne_self ck
  have hdkck := doneKey_ne_self ck
  have hdkvk := doneKey_ne_verifiedKey ck
  unfold RedisStreamProvider.getChunks
  set st4 := ((((st0.setList ck chunks).setList
      (RedisStreamProvider.verifiedKey ck) v0).set
        (RedisStreamProvider.doneKey ck) "1" none).del
    (RedisStreamProvider.verifiedKey ck)) with hst4
  have hck4 : st4.val ck = some (RVal.list chunks) := by
    rw [hst4]
    rw [Store.val_del_ne _ _ _ (fun he => hvkck he.symm),
      Store.val_set_ne _ _ _ _ _ (fun he => hdkck he.symm),
      Store.val_setList_ne _ _ _ _ (fun he => hvkck he.symm)]
    exact Store.val_setList_self _ _ _
  have hvk4 : st4.val (RedisStreamProvider.verifiedKey ck) =
      (if (List.nil (α := String)).isEmpty then none
       else some (RVal.list [])) := by
    rw [hst4, Store.val_del_self]
    simp
  have hdone4 : RedisStreamProvider.doneTruthy ck st4 = true := by
    unfold RedisStreamProvider.doneTruthy Store.getStr
    rw [hst4]
    rw [Store.val_del_ne _ _ _ hdkvk, Store.val_set_self]
    rfl
  obtain ⟨stf, hrun, hver⟩ := drainLoop_spec ck chunks st4 [] hck4 hvk4
    hdone4 hmem
  refine ⟨stf, ?_, ?_⟩
  · rw [hrun]
    simp
  · rw [hver]
    simp

/-- C10 witness.  Instantiation with two chunks and a non-empty leftover
verified list from an earlier read. -/
theorem claim_C10_drain_resets_verified_witness :
    ∃ stf,
      RedisStreamProvider.getChunks "t" 3
          (((Store.empty.setList "t" ["a", "b"]).setList
                (RedisStreamProvider.verifiedKey "t") ["old"]).set
            (RedisStreamProvider.doneKey "t") "1" none) =
        some (["a", "b"], stf) ∧
      stf.val (RedisStreamProvider.verifiedKey "t") =
        (if (["a", "b"] : List String).isEmpty then none
         else some (RVal.list ["a", "b"])) :=
  claim_C10_drain_resets_verified "t" ["a", "b"] ["old"] Store.empty
    (by decide)

end VirusScanner
